import Mathlib

/-!
Verification of `net_diag_tool.py` (a command-line network diagnostic tool).

The file shallowly embeds the program: the port scanner `scan_ports`, the
thin wrappers `ping_host` and `traceroute`, and the argument handling and
dispatch of `main`.  Network effects are parameters: a resolver oracle
`res : String → Option String` models `socket.gethostbyname` (`none` =
`socket.gaierror`), and a connect oracle gives the `errno` value returned by
`sock.connect_ex` for each port (`0` = connection succeeded).  Exceptions
that Python raises (`ValueError` from `int(...)`, `OverflowError` from an
out-of-range port) are modelled with `Except`.
-/

namespace NetDiag

deriving instance DecidableEq for Except

/-- Probe states.  The source only ever reports `opened` ("Open") or
`closed` ("Closed"); `filtered` and `errored` are included so that claims
about a distinct Filtered/Timeout or Error state can be stated. -/
inductive Status where
  | opened
  | closed
  | filtered
  | errored
deriving DecidableEq

/-- What the sequential scan loop records for one probed port: the port, the
timeout the probe's socket actually carried (the process-wide default at the
moment `socket.socket(...)` ran, in seconds; `none` = no timeout, blocking),
and the printed status. -/
structure ProbeRec where
  port : Int
  timeoutUsed : Option Nat
  status : Status
deriving DecidableEq

/-- Value of a nonempty all-digit character run, `none` when some character
is not an ASCII digit (or when the run is empty at top level, handled by the
caller). -/
def digitsVal : List Char → Option Nat
  | [] => some 0
  | c :: cs =>
    if c.isDigit then
      match digitsVal cs with
      | some n => some ((c.toNat - 48) * 10 ^ cs.length + n)
      | none => none
    else none

/-- Leading- and trailing-whitespace stripping, as Python `int` applies to
its argument before parsing. -/
def pyStrip (cs : List Char) : List Char :=
  ((cs.dropWhile Char.isWhitespace).reverse.dropWhile Char.isWhitespace).reverse

/-- Python `int(s)` on the characters of a token: strip surrounding
whitespace, allow one optional sign, then require at least one ASCII digit
(underscored literals are not modelled; no port string in this development
uses them).  Any other input — in particular the empty string — raises
`ValueError`, modelled as `Except.error`. -/
def pyIntChars (cs0 : List Char) : Except String Int :=
  let cs := pyStrip cs0
  let signed : Int × List Char :=
    match cs with
    | '-' :: r => (-1, r)
    | '+' :: r => (1, r)
    | r => (1, r)
  match signed.2 with
  | [] => Except.error "ValueError: invalid literal for int() with base 10"
  | r =>
    match digitsVal r with
    | some n => Except.ok (signed.1 * (n : Int))
    | none => Except.error "ValueError: invalid literal for int() with base 10"

/-- Python `int(s)` on a string token. -/
def pyInt (s : String) : Except String Int :=
  pyIntChars s.toList

/-- Python `s.split(',')`: always at least one field, so `"".split(',')`
is `[""]` and a trailing comma yields a trailing empty field. -/
def splitComma : List Char → List (List Char)
  | [] => [[]]
  | c :: cs =>
    if c = ',' then [] :: splitComma cs
    else
      match splitComma cs with
      | [] => [[c]]
      | g :: gs => (c :: g) :: gs

/-- The comprehension body: tokens are converted left to right and the first
failing `int(...)` raises. -/
def mapIntList : List (List Char) → Except String (List Int)
  | [] => Except.ok []
  | t :: ts =>
    match pyIntChars t with
    | Except.error e => Except.error e
    | Except.ok n =>
      match mapIntList ts with
      | Except.error e => Except.error e
      | Except.ok ns => Except.ok (n :: ns)

/-- `port_list = [int(p) for p in ports.split(',')]` (line 82).  Note that
Python's `"".split(',')` is `[""]`, so an empty ports string makes
`int("")` raise `ValueError`. -/
def parsePorts (ports : String) : Except String (List Int) :=
  mapIntList (splitComma ports.toList)

/-- `sock.connect_ex((ip_address, port))` (line 92): for a port outside
`[0, 65535]` CPython raises `OverflowError` before any packet is sent;
otherwise the call returns an errno (`0` on success), supplied here by the
oracle `conn`. -/
def connectEx (conn : Int → Int) (port : Int) : Except String Int :=
  if port < 0 ∨ 65535 < port then
    Except.error "OverflowError: getsockaddrarg: port must be 0-65535"
  else Except.ok (conn port)

/-- The classification in lines 93–97: `result == 0` prints "Open" and the
port joins `open_ports`; any other errno — refused, timed out, or any other
transport error — falls into the `else` branch and prints "Closed". -/
def classify (r : Int) : Status :=
  if r = 0 then Status.opened else Status.closed

/-- The `for port in port_list` loop of `scan_ports` (lines 84–98).  The
second argument is the process-wide default socket timeout at loop entry
(`socket.getdefaulttimeout()`, initially `none`): each iteration first
creates its socket — which captures the current default — and only then runs
`socket.setdefaulttimeout(1)`, so the recursive call proceeds with `some 1`. -/
def scanLoop (conn : Int → Int) : Option Nat → List Int → Except String (List ProbeRec)
  | _, [] => Except.ok []
  | d, p :: ps =>
    match connectEx conn p with
    | Except.error e => Except.error e
    | Except.ok r =>
      match scanLoop conn (some 1) ps with
      | Except.error e => Except.error e
      | Except.ok rest => Except.ok (⟨p, d, classify r⟩ :: rest)

/-- The socket timeouts the loop hands out: the first socket is created
before any `setdefaulttimeout` call, every later one after it. -/
def timeoutsOf : Option Nat → List Int → List (Option Nat)
  | _, [] => []
  | d, _ :: ps => d :: timeoutsOf (some 1) ps

/-- Whether a record went through the `result == 0` branch. -/
def isOpenRec (r : ProbeRec) : Bool :=
  match r.status with
  | Status.opened => true
  | _ => false

/-- The `open_ports` list that `scan_ports` accumulates (appended in loop
order whenever `result == 0`) and prints in the summary line. -/
def openPortsOf (recs : List ProbeRec) : List Int :=
  (recs.filter isOpenRec).map ProbeRec.port

/-- Observable milestones of a run: each `resolve_host` call, and the start
of each diagnostic step (the step's banner line). -/
inductive Event where
  | resolveCall (host : String)
  | pingStep (host : String)
  | scanStep (host : String) (ports : String)
  | traceStep (host : String)
deriving DecidableEq

/-- Bool test for a scan-step event. -/
def isScanStep : Event → Bool
  | Event.scanStep _ _ => true
  | _ => false

/-- Number of `resolve_host` invocations recorded in a trace. -/
def resolveCalls (evs : List Event) : Nat :=
  evs.countP fun e =>
    match e with
    | Event.resolveCall _ => true
    | _ => false

/-- Embedding of `scan_ports(host, ports)` (lines 67–106).  It resolves the
host itself (line 71) and returns early — `Except.ok none` — when resolution
fails; otherwise it prints the scan banner (recorded as `Event.scanStep`),
parses the port string, and runs the sequential probe loop.  `Except.error`
models an exception (`ValueError` from `int`, `OverflowError` from
`connect_ex`) escaping the function: nothing in `scan_ports` catches it. -/
def scan_ports (res : String → Option String) (conn : String → Int → Int)
    (host : String) (ports : String) :
    List Event × Except String (Option (List ProbeRec)) :=
  match res host with
  | none => ([Event.resolveCall host], Except.ok none)
  | some ip =>
    match parsePorts ports with
    | Except.error e => ([Event.resolveCall host, Event.scanStep host ports], Except.error e)
    | Except.ok ps =>
      match scanLoop (conn ip) none ps with
      | Except.error e => ([Event.resolveCall host, Event.scanStep host ports], Except.error e)
      | Except.ok recs =>
        ([Event.resolveCall host, Event.scanStep host ports], Except.ok (some recs))

/-- Embedding of `ping_host(host)` (lines 44–65): it does not resolve, and
both `CalledProcessError` and `FileNotFoundError` are caught inside it, so
it always returns normally whatever the ping subprocess does. -/
def ping_host (host : String) : List Event :=
  [Event.pingStep host]

/-- Embedding of `traceroute(host)` (lines 109–130): it resolves the host
itself and returns early on failure; `FileNotFoundError` from the subprocess
is caught, so it always returns normally. -/
def traceroute (res : String → Option String) (host : String) : List Event :=
  match res host with
  | none => [Event.resolveCall host]
  | some _ => [Event.resolveCall host, Event.traceStep host]

/-- The parsed argparse namespace for this parser: positional `host`,
store-true flags `-p` (`--ping`), `-t` (`--traceroute`), `-a` (`--all`),
and the string-valued `-s` (`--scan`). -/
structure Args where
  host : String
  ping : Bool
  scan : Option String
  traceroute : Bool
  all : Bool
deriving DecidableEq

/-- Outcome of `parser.parse_args()`: a namespace, or `SystemExit` with the
given process exit code (argparse errors exit 2; `-h` and `--help` exit 0). -/
inductive ParseOutcome where
  | parsed (args : Args)
  | halt (code : Nat)
deriving DecidableEq

/-- Does a token look like an option (starts with `-` and is not the bare
`-`, which argparse treats as a positional)? -/
def isFlagTok (tok : String) : Bool :=
  match tok.toList with
  | '-' :: _ :: _ => true
  | _ => false

/-- argparse behaviour for this parser, modelled for exact option spellings.
Abbreviated long options, `--scan=V`, and grouped short options are not
modelled (no claim depends on them).  Missing `host`, an unknown option, a
missing `-s` value or an extra positional make argparse error out with exit
code 2; `-h`/`--help` prints help and exits 0. -/
def parseLoop : List String → Option String → Bool → Option String → Bool → Bool → ParseOutcome
  | [], host, p, s, t, a =>
    match host with
    | none => ParseOutcome.halt 2
    | some h => ParseOutcome.parsed ⟨h, p, s, t, a⟩
  | tok :: rest, host, p, s, t, a =>
    if tok = "-h" ∨ tok = "--help" then ParseOutcome.halt 0
    else if tok = "-p" ∨ tok = "--ping" then parseLoop rest host true s t a
    else if tok = "-t" ∨ tok = "--traceroute" then parseLoop rest host p s true a
    else if tok = "-a" ∨ tok = "--all" then parseLoop rest host p s t true
    else if tok = "-s" ∨ tok = "--scan" then
      match rest with
      | [] => ParseOutcome.halt 2
      | v :: rest2 =>
        if isFlagTok v then ParseOutcome.halt 2
        else parseLoop rest2 host p (some v) t a
    else if isFlagTok tok then ParseOutcome.halt 2
    else
      match host with
      | none => parseLoop rest (some tok) p s t a
      | some _ => ParseOutcome.halt 2

/-- `parser.parse_args()` over `sys.argv[1:]`. -/
def parseArgs (argv : List String) : ParseOutcome :=
  parseLoop argv none false none false false

/-- The fixed default port list used by `--all` (line 171). -/
def commonPorts : String := "21,22,80,443,3306,8000,8080"

/-- Outcome of a whole invocation: the event trace and the process exit
code. -/
structure MainResult where
  events : List Event
  exitCode : Nat
deriving DecidableEq

/-- The dispatch part of `main` after argument parsing (lines 158–180): the
up-front DNS lookup (whose failure is only printed, never fatal), then
either the fixed `--all` sequence — ping, scan of `commonPorts`, traceroute
— or the individually requested steps in the order ping, scan, traceroute.
Python falsiness of `args.scan` means `-s` with an empty string skips the
scan step.  An exception escaping `scan_ports` terminates the process as an
uncaught traceback, exit code 1. -/
def runArgs (res : String → Option String) (conn : String → Int → Int)
    (a : Args) : MainResult :=
  let ev0 := [Event.resolveCall a.host]
  if a.all then
    let sres := scan_ports res conn a.host commonPorts
    match sres.2 with
    | Except.error _ => ⟨ev0 ++ ping_host a.host ++ sres.1, 1⟩
    | Except.ok _ =>
      ⟨ev0 ++ ping_host a.host ++ sres.1 ++ traceroute res a.host, 0⟩
  else
    let evPing := if a.ping then ping_host a.host else []
    let doScan : Bool :=
      match a.scan with
      | none => false
      | some s => !(s = "")
    if doScan then
      let sres := scan_ports res conn a.host ((a.scan).getD "")
      match sres.2 with
      | Except.error _ => ⟨ev0 ++ evPing ++ sres.1, 1⟩
      | Except.ok _ =>
        let evT := if a.traceroute then traceroute res a.host else []
        ⟨ev0 ++ evPing ++ sres.1 ++ evT, 0⟩
    else
      let evT := if a.traceroute then traceroute res a.host else []
      ⟨ev0 ++ evPing ++ evT, 0⟩

/-- Embedding of `main()` (lines 133–180) over `argv = sys.argv[1:]`: with
no arguments at all it prints help to stderr and exits 1 (lines 150–152);
an argparse failure exits with argparse's own code; otherwise the parsed
namespace is dispatched. -/
def main (res : String → Option String) (conn : String → Int → Int)
    (argv : List String) : MainResult :=
  if argv = [] then ⟨[], 1⟩
  else
    match parseArgs argv with
    | ParseOutcome.halt c => ⟨[], c⟩
    | ParseOutcome.parsed a => runArgs res conn a

/-- A resolver oracle for which every hostname resolves. -/
def resOk : String → Option String := fun _ => some "93.184.216.34"

/-- A resolver oracle for which no hostname resolves (`socket.gaierror`). -/
def resFail : String → Option String := fun _ => none

/-- Connect oracle: every port accepts the connection (`connect_ex` = 0). -/
def connAccept : String → Int → Int := fun _ _ => 0

/-- Per-port errno oracle: every connect attempt succeeds. -/
def connOpen : Int → Int := fun _ => 0

/-- Per-port errno oracle: every connect attempt is actively refused
(errno 111, `ECONNREFUSED`). -/
def connRefuse : Int → Int := fun _ => 111

/-- Per-port errno oracle: every connect attempt times out, `connect_ex`
returning the nonzero timeout errno (110, `ETIMEDOUT`). -/
def connTimeout : Int → Int := fun _ => 110

/-- Per-port errno oracle: port 80 accepts, everything else is refused. -/
def conn80 : Int → Int := fun p => if p = 80 then 0 else 111

/-- An argument namespace whose scan step cannot raise: either the fixed
`--all` list is used, no scan was requested (including the falsy empty
`-s` value), or the supplied port string parses to integers inside the
socket range. -/
def goodScan (a : Args) : Prop :=
  a.all = true ∨ a.scan = none ∨ a.scan = some "" ∨
    ∃ ps, parsePorts ((a.scan).getD "") = Except.ok ps ∧
      ∀ p ∈ ps, 0 ≤ p ∧ p ≤ 65535

lemma connectEx_ok {conn : Int → Int} {p r : Int}
    (h : connectEx conn p = Except.ok r) : r = conn p := by
  unfold connectEx at h
  split at h
  · exact Except.noConfusion h
  · injection h with h
    exact h.symm

lemma openPortsOf_cons (r : ProbeRec) (rest : List ProbeRec) :
    openPortsOf (r :: rest) =
      if isOpenRec r then r.port :: openPortsOf rest else openPortsOf rest := by
  unfold openPortsOf
  rw [List.filter_cons]
  split <;> simp_all

lemma isOpenRec_mk (p : Int) (d : Option Nat) (r : Int) :
    isOpenRec ⟨p, d, classify r⟩ = decide (r = 0) := by
  by_cases hr : r = 0 <;> simp [isOpenRec, classify, hr]

/-- Everything the sequential loop guarantees about a completed scan: results
come back in input order, the first socket carries the initial default
timeout and all later ones carry 1 second, each status is exactly the
two-way classification of that port's `connect_ex` value, and the open-port
summary is the input list filtered by success of `connect_ex`. -/
lemma scanLoop_spec (conn : Int → Int) :
    ∀ (ports : List Int) (d : Option Nat) (recs : List ProbeRec),
      scanLoop conn d ports = Except.ok recs →
      recs.map ProbeRec.port = ports ∧
      recs.map ProbeRec.timeoutUsed = timeoutsOf d ports ∧
      (∀ r ∈ recs, r.status = classify (conn r.port)) ∧
      openPortsOf recs = ports.filter (fun p => decide (conn p = 0)) := by
  intro ports
  induction ports with
  | nil =>
    intro d recs h
    simp only [scanLoop] at h
    injection h with h
    subst h
    simp [timeoutsOf, openPortsOf]
  | cons p ps ih =>
    intro d recs h
    simp only [scanLoop] at h
    split at h
    · exact Except.noConfusion h
    · rename_i r hc
      split at h
      · exact Except.noConfusion h
      · rename_i rest hrest
        injection h with h
        subst h
        obtain rfl : r = conn p := connectEx_ok hc
        obtain ⟨ih1, ih2, ih3, ih4⟩ := ih (some 1) rest hrest
        refine ⟨by simp [ih1], by simp [timeoutsOf, ih2], ?_, ?_⟩
        · intro x hx
          rcases List.mem_cons.mp hx with hx | hx
          · subst hx
            rfl
          · exact ih3 x hx
        · rw [openPortsOf_cons, isOpenRec_mk, List.filter_cons]
          by_cases h0 : conn p = 0 <;> simp [h0, ih4]

/-- As long as every requested port is in the OS-accepted range
`[0, 65535]`, the loop finishes normally — whatever errno each individual
`connect_ex` returns — with exactly one record per entry of the list. -/
lemma scanLoop_total (conn : Int → Int) :
    ∀ (ports : List Int), (∀ p ∈ ports, 0 ≤ p ∧ p ≤ 65535) →
      ∀ d, ∃ recs, scanLoop conn d ports = Except.ok recs ∧
        recs.length = ports.length := by
  intro ports
  induction ports with
  | nil =>
    intro _ d
    exact ⟨[], rfl, rfl⟩
  | cons p ps ih =>
    intro h d
    obtain ⟨hp0, hp1⟩ := h p (List.mem_cons_self p ps)
    obtain ⟨recs, hr, hlen⟩ := ih (fun q hq => h q (List.mem_cons_of_mem _ hq)) (some 1)
    refine ⟨⟨p, d, classify (conn p)⟩ :: recs, ?_, by simp [hlen]⟩
    have hce : connectEx conn p = Except.ok (conn p) := by
      unfold connectEx
      rw [if_neg]
      push_neg
      exact ⟨hp0, hp1⟩
    simp only [scanLoop, hce, hr]

lemma mapIntList_length :
    ∀ (ts : List (List Char)) (ps : List Int),
      mapIntList ts = Except.ok ps → ps.length = ts.length := by
  intro ts
  induction ts with
  | nil =>
    intro ps h
    injection h with h
    subst h
    rfl
  | cons t ts ih =>
    intro ps h
    simp only [mapIntList] at h
    split at h
    · exact Except.noConfusion h
    · split at h
      · exact Except.noConfusion h
      · rename_i ns hns
        injection h with h
        subst h
        simp [ih ns hns]

lemma parsePorts_length {s : String} {ps : List Int}
    (h : parsePorts s = Except.ok ps) :
    ps.length = (splitComma s.toList).length :=
  mapIntList_length _ _ h

lemma parsePorts_common :
    parsePorts commonPorts = Except.ok [21, 22, 80, 443, 3306, 8000, 8080] := by
  decide

/-- The `--all` scan never raises: its fixed port list is valid and in
range, so the loop completes for every connect oracle. -/
lemma scanLoop_common (f : Int → Int) :
    scanLoop f none [21, 22, 80, 443, 3306, 8000, 8080] =
      Except.ok [⟨21, none, classify (f 21)⟩, ⟨22, some 1, classify (f 22)⟩,
        ⟨80, some 1, classify (f 80)⟩, ⟨443, some 1, classify (f 443)⟩,
        ⟨3306, some 1, classify (f 3306)⟩, ⟨8000, some 1, classify (f 8000)⟩,
        ⟨8080, some 1, classify (f 8080)⟩] := by
  simp only [scanLoop, connectEx]
  norm_num

/-- C1 (counterexample): the claim "a probe that exceeds its per-port
deadline with no response is reported Filtered/Timeout, distinct from
Closed" is false for this code.  When `connect_ex` on port 80 returns the
timeout errno 110 (`ETIMEDOUT`), the scan falls into the generic `else`
branch of lines 93–97 and reports the port Closed — and `Status.closed` is
not `Status.filtered`. -/
theorem c1_timeout_reported_closed :
    scanLoop connTimeout none [80] = Except.ok [⟨80, none, Status.closed⟩] ∧
    Status.closed ≠ Status.filtered :=
  ⟨by decide, by decide⟩

/-- C1 (amended): `scan_ports` classifies every probed port into exactly two
states, not four: a `connect_ex` result of 0 is reported Open, and every
nonzero result — actively refused, timed out, or any other transport error —
is reported Closed; no Filtered/Timeout state and no Error state is ever
produced, and no error detail is captured. -/
theorem c1_two_state_classification (conn : Int → Int) (d : Option Nat)
    (ports : List Int) (recs : List ProbeRec)
    (h : scanLoop conn d ports = Except.ok recs) :
    ∀ r ∈ recs,
      (r.status = Status.opened ↔ conn r.port = 0) ∧
      (conn r.port ≠ 0 → r.status = Status.closed) := by
  intro r hr
  rw [(scanLoop_spec conn ports d recs h).2.2.1 r hr]
  by_cases h0 : conn r.port = 0 <;> simp [classify, h0]

/-- Witness for the amended C1 at a concrete timed-out probe. -/
theorem c1_two_state_classification_witness :
    ((⟨80, none, Status.closed⟩ : ProbeRec).status = Status.opened ↔
      connTimeout (⟨80, none, Status.closed⟩ : ProbeRec).port = 0) ∧
    (connTimeout (⟨80, none, Status.closed⟩ : ProbeRec).port ≠ 0 →
      (⟨80, none, Status.closed⟩ : ProbeRec).status = Status.closed) :=
  c1_two_state_classification connTimeout none [80] [⟨80, none, Status.closed⟩]
    (by decide) ⟨80, none, Status.closed⟩ (by decide)

/-- C2 (counterexample): duplicate ports do not collapse before the work
partitioning: for the input string "80,443,80" the parsed work list keeps
both occurrences of 80, the scan probes three ports — port 80 twice — and
produces three results, although the number of distinct requested ports is
2. -/
theorem c2_duplicates_probed_twice :
    parsePorts "80,443,80" = Except.ok [80, 443, 80] ∧
    scanLoop connOpen none [80, 443, 80] =
      Except.ok [⟨80, none, Status.opened⟩, ⟨443, some 1, Status.opened⟩,
        ⟨80, some 1, Status.opened⟩] ∧
    ([⟨80, none, Status.opened⟩, ⟨443, some 1, Status.opened⟩,
        ⟨80, some 1, Status.opened⟩] : List ProbeRec).length = 3 ∧
    ([80, 443, 80] : List Int).dedup.length = 2 ∧
    (([⟨80, none, Status.opened⟩, ⟨443, some 1, Status.opened⟩,
        ⟨80, some 1, Status.opened⟩] : List ProbeRec).map ProbeRec.port).count 80 = 2 :=
  ⟨by decide, by decide, by decide, by decide, by decide⟩

/-- C2 (amended): `scan_ports` produces exactly one ProbeRec per OCCURRENCE
in the comma-separated input, in order: the results length equals the token
count of the input string (not the distinct count), and a port listed k
times is probed k times. -/
theorem c2_one_result_per_occurrence (conn : Int → Int) (s : String)
    (ps : List Int) (recs : List ProbeRec) (q : Int)
    (h1 : parsePorts s = Except.ok ps)
    (h2 : scanLoop conn none ps = Except.ok recs) :
    recs.length = (splitComma s.toList).length ∧
    (recs.map ProbeRec.port).count q = ps.count q := by
  have hmap := (scanLoop_spec conn ps none recs h2).1
  constructor
  · rw [← parsePorts_length h1, ← hmap, List.length_map]
  · rw [hmap]

/-- Witness for the amended C2 on the duplicated input "80,443,80". -/
theorem c2_one_result_per_occurrence_witness :
    ([⟨80, none, Status.opened⟩, ⟨443, some 1, Status.opened⟩,
        ⟨80, some 1, Status.opened⟩] : List ProbeRec).length =
      (splitComma ("80,443,80").toList).length ∧
    (([⟨80, none, Status.opened⟩, ⟨443, some 1, Status.opened⟩,
        ⟨80, some 1, Status.opened⟩] : List ProbeRec).map ProbeRec.port).count 80 =
      ([80, 443, 80] : List Int).count 80 :=
  c2_one_result_per_occurrence connOpen "80,443,80" [80, 443, 80]
    [⟨80, none, Status.opened⟩, ⟨443, some 1, Status.opened⟩,
      ⟨80, some 1, Status.opened⟩] 80 (by decide) (by decide)

/-- C3 (counterexample): the report is not ordered by first appearance.  For
the input "80,443,80" with 80 open and 443 refused — the spec's own
end-to-end example, which demands results for [80, 443] and open-port
summary [80] — the code reports result ports [80, 443, 80], where a result
for 80 appears again after 443's, and prints the summary [80, 80]. -/
theorem c3_report_not_first_appearance_order :
    parsePorts "80,443,80" = Except.ok [80, 443, 80] ∧
    scanLoop conn80 none [80, 443, 80] =
      Except.ok [⟨80, none, Status.opened⟩, ⟨443, some 1, Status.closed⟩,
        ⟨80, some 1, Status.opened⟩] ∧
    ([⟨80, none, Status.opened⟩, ⟨443, some 1, Status.closed⟩,
        ⟨80, some 1, Status.opened⟩] : List ProbeRec).map ProbeRec.port ≠ [80, 443] ∧
    openPortsOf [⟨80, none, Status.opened⟩, ⟨443, some 1, Status.closed⟩,
        ⟨80, some 1, Status.opened⟩] = [80, 80] ∧
    ([80, 80] : List Int) ≠ [80] :=
  ⟨by decide, by decide, by decide, by decide, by decide⟩

/-- C3 (amended): the report is in input OCCURRENCE order: the result ports
are exactly the parsed port list — probing is sequential, so completion
order coincides with input order — and the open-port summary is that list
filtered by connect success, with duplicates repeated at each occurrence
rather than merged into the first appearance. -/
theorem c3_results_in_occurrence_order (conn : Int → Int) (ps : List Int)
    (recs : List ProbeRec) (h : scanLoop conn none ps = Except.ok recs) :
    recs.map ProbeRec.port = ps ∧
    openPortsOf recs = ps.filter (fun p => decide (conn p = 0)) :=
  ⟨(scanLoop_spec conn ps none recs h).1, (scanLoop_spec conn ps none recs h).2.2.2⟩

/-- Witness for the amended C3 on "80,443,80" with only port 80 open. -/
theorem c3_results_in_occurrence_order_witness :
    ([⟨80, none, Status.opened⟩, ⟨443, some 1, Status.closed⟩,
        ⟨80, some 1, Status.opened⟩] : List ProbeRec).map ProbeRec.port =
      [80, 443, 80] ∧
    openPortsOf [⟨80, none, Status.opened⟩, ⟨443, some 1, Status.closed⟩,
        ⟨80, some 1, Status.opened⟩] =
      ([80, 443, 80] : List Int).filter (fun p => decide (conn80 p = 0)) :=
  c3_results_in_occurrence_order conn80 [80, 443, 80]
    [⟨80, none, Status.opened⟩, ⟨443, some 1, Status.closed⟩,
      ⟨80, some 1, Status.opened⟩] (by decide)

/-- C5 (counterexample): scanning the empty port set does not return a
zero-result report: `"".split(',')` is `[""]`, so `int("")` raises
`ValueError` and the exception escapes `scan_ports`.  At a concrete call
with a resolving host the outcome is the uncaught error, not an empty
result list. -/
theorem c5_empty_ports_raises :
    (scan_ports resOk connAccept "example.com" "").2 =
      Except.error "ValueError: invalid literal for int() with base 10" ∧
    (scan_ports resOk connAccept "example.com" "").2 ≠
      Except.ok (some ([] : List ProbeRec)) :=
  ⟨by decide, by decide⟩

/-- C5 (amended): for every resolving host, the empty ports string makes
`scan_ports` raise `ValueError` instead of returning an empty report; the
scan step is reached with an empty port set only through `scan_ports`
directly, because at the CLI an empty `-s` value is falsy in Python, so
`main` skips the scan step entirely and exits 0. -/
theorem c5_empty_ports_error (res : String → Option String)
    (conn : String → Int → Int) (h ip : String) (hres : res h = some ip) :
    (∃ e, (scan_ports res conn h "").2 = Except.error e) ∧
    runArgs res conn ⟨h, false, some "", false, false⟩ =
      ⟨[Event.resolveCall h], 0⟩ := by
  constructor
  · refine ⟨"ValueError: invalid literal for int() with base 10", ?_⟩
    simp only [scan_ports, hres]
    rfl
  · rfl

/-- Witness for the amended C5 with the all-resolving oracle. -/
theorem c5_empty_ports_error_witness :
    (∃ e, (scan_ports resOk connAccept "example.com" "").2 = Except.error e) ∧
    runArgs resOk connAccept ⟨"example.com", false, some "", false, false⟩ =
      ⟨[Event.resolveCall "example.com"], 0⟩ :=
  c5_empty_ports_error resOk connAccept "example.com" "93.184.216.34" rfl

/-- C8 (code bug): the per-probe deadline does not apply to the first probe.
`socket.setdefaulttimeout(1)` (line 88) runs inside the loop only after the
iteration's socket has already been created (line 86), and a Python socket
captures the process-wide default at creation time, so the first socket
carries the initial default `None` — no deadline at all, the probe can block
indefinitely — while every later socket carries 1 second.  Scanning
"80,443,8080" gives probe timeouts `[none, some 1, some 1]`, contradicting
"a hard deadline of per_port_timeout ... including the first". -/
theorem c8_first_probe_has_no_deadline :
    scanLoop connRefuse none [80, 443, 8080] =
      Except.ok [⟨80, none, Status.closed⟩, ⟨443, some 1, Status.closed⟩,
        ⟨8080, some 1, Status.closed⟩] ∧
    timeoutsOf none [80, 443, 8080] = [none, some 1, some 1] ∧
    (none : Option Nat) ≠ some 1 :=
  ⟨by decide, by decide, by decide⟩

/-- Under `--all` the whole dispatch — for any resolver and connect oracle —
produces the fixed sequence of events; the scan of the default port list
cannot raise, so the run always ends with exit code 0. -/
lemma runArgs_all (res : String → Option String) (conn : String → Int → Int)
    (a : Args) (hall : a.all = true) :
    runArgs res conn a =
      match res a.host with
      | none =>
        ⟨[Event.resolveCall a.host, Event.pingStep a.host,
          Event.resolveCall a.host, Event.resolveCall a.host], 0⟩
      | some _ =>
        ⟨[Event.resolveCall a.host, Event.pingStep a.host,
          Event.resolveCall a.host, Event.scanStep a.host commonPorts,
          Event.resolveCall a.host, Event.traceStep a.host], 0⟩ := by
  cases hres : res a.host with
  | none =>
    simp only [runArgs, hall, if_true, scan_ports, hres, traceroute, ping_host]
    rfl
  | some ip =>
    simp only [runArgs, hall, if_true, scan_ports, hres, parsePorts_common,
      scanLoop_common, traceroute, ping_host]
    rfl

/-- C6 (counterexample): resolution is not performed exactly once per
invocation and not only by the orchestrating `main`: running
`example.com -a` calls `resolve_host` three times — once up front in `main`
(line 160), once inside `scan_ports` (line 71) and once inside `traceroute`
(line 113) — and the `scan_ports` trace alone contains a resolve call, so
the scanner does perform resolution itself. -/
theorem c6_resolution_happens_three_times :
    resolveCalls (main resOk connAccept ["example.com", "-a"]).events = 3 ∧
    (3 : Nat) ≠ 1 ∧
    resolveCalls (scan_ports resOk connAccept "example.com" "80").1 = 1 :=
  ⟨by decide, by decide, by decide⟩

/-- C6 (amended): `main` resolves once up front (reporting failure but not
skipping any step), and `scan_ports` and `traceroute` each resolve the host
again themselves: under `--all` exactly three `resolve_host` calls occur,
whatever the resolver and connect oracles do; and it is the scanner itself,
not its caller, that skips scanning when its own resolution fails,
returning early with no report. -/
theorem c6_resolution_per_step (res res2 : String → Option String)
    (conn conn2 : String → Int → Int) (a : Args) (h2 p2 : String)
    (hall : a.all = true) (hres2 : res2 h2 = none) :
    resolveCalls (runArgs res conn a).events = 3 ∧
    scan_ports res2 conn2 h2 p2 = ([Event.resolveCall h2], Except.ok none) := by
  constructor
  · rw [runArgs_all res conn a hall]
    cases res a.host <;> simp [resolveCalls, List.countP_cons]
  · simp only [scan_ports, hres2]

/-- Witness for the amended C6: a concrete `--all` run and a concrete
non-resolving scan call. -/
theorem c6_resolution_per_step_witness :
    resolveCalls (runArgs resOk connAccept
      ⟨"example.com", false, none, false, true⟩).events = 3 ∧
    scan_ports resFail connAccept "nosuch.example" "80" =
      ([Event.resolveCall "nosuch.example"], Except.ok none) :=
  c6_resolution_per_step resOk resFail connAccept connAccept
    ⟨"example.com", false, none, false, true⟩ "nosuch.example" "80" rfl rfl

/-- C7 (counterexample): a single malformed port token aborts the whole
run: `example.com -s 80,abc -t` makes `int("abc")` raise `ValueError` out
of `scan_ports`, the process dies with exit code 1 (uncaught traceback),
and the traceroute step that was also requested never runs. -/
theorem c7_malformed_port_aborts_run :
    main resOk connAccept ["example.com", "-s", "80,abc", "-t"] =
      ⟨[Event.resolveCall "example.com", Event.resolveCall "example.com",
        Event.scanStep "example.com" "80,abc"], 1⟩ ∧
    Event.traceStep "example.com" ∉
      (main resOk connAccept ["example.com", "-s", "80,abc", "-t"]).events :=
  ⟨by decide, by decide⟩

/-- C7 (amended): failure containment holds only for the connect itself and
for the external tools: an in-range port list always completes with one
result per entry whatever errno each `connect_ex` returns, and `ping_host`
and `traceroute` catch their subprocess errors; but a malformed port token
(`ValueError` from `int`) — likewise an out-of-range port (`OverflowError`
from `connect_ex`) — is caught nowhere, aborts the rest of the run and
terminates the process with exit code 1. -/
theorem c7_per_port_containment_limits (conn : Int → Int)
    (ports : List Int) (res : String → Option String)
    (connS : String → Int → Int) (ip : String)
    (hrange : ∀ p ∈ ports, 0 ≤ p ∧ p ≤ 65535)
    (hres : res "example.com" = some ip) :
    (∃ recs, scanLoop conn none ports = Except.ok recs ∧
      recs.length = ports.length) ∧
    main res connS ["example.com", "-s", "80,abc", "-t"] =
      ⟨[Event.resolveCall "example.com", Event.resolveCall "example.com",
        Event.scanStep "example.com" "80,abc"], 1⟩ := by
  refine ⟨scanLoop_total conn ports hrange none, ?_⟩
  have hp : parseArgs ["example.com", "-s", "80,abc", "-t"] =
      ParseOutcome.parsed ⟨"example.com", false, some "80,abc", true, false⟩ := by
    decide
  have hparse : parsePorts "80,abc" =
      Except.error "ValueError: invalid literal for int() with base 10" := by
    decide
  have hargv : (["example.com", "-s", "80,abc", "-t"] : List String) ≠ [] := by
    decide
  simp only [main, if_neg hargv, hp, runArgs, scan_ports, hres, hparse]
  rfl

/-- Witness for the amended C7: two refused in-range ports, plus the
concrete aborting run with the all-resolving oracle. -/
theorem c7_per_port_containment_limits_witness :
    (∃ recs, scanLoop connRefuse none [80, 443] = Except.ok recs ∧
      recs.length = ([80, 443] : List Int).length) ∧
    main resOk connAccept ["example.com", "-s", "80,abc", "-t"] =
      ⟨[Event.resolveCall "example.com", Event.resolveCall "example.com",
        Event.scanStep "example.com" "80,abc"], 1⟩ :=
  c7_per_port_containment_limits connRefuse [80, 443] resOk connAccept
    "93.184.216.34" (by decide) rfl

/-- Any dispatch whose scan step cannot raise finishes with exit code 0,
whatever the resolver and the probe outcomes are. -/
lemma runArgs_exit_zero (res : String → Option String)
    (conn : String → Int → Int) (a : Args) (hs : goodScan a) :
    (runArgs res conn a).exitCode = 0 := by
  cases hall : a.all with
  | true =>
    rw [runArgs_all res conn a hall]
    cases res a.host <;> rfl
  | false =>
    simp only [runArgs, hall, if_false, Bool.false_eq_true]
    cases hscan : a.scan with
    | none => rfl
    | some s =>
      by_cases hempty : s = ""
      · subst hempty
        rfl
      · have hdo : (!(s = "" : Bool)) = true := by
          simp [hempty]
        simp only [hdo, if_true]
        cases hres : res a.host with
        | none =>
          simp only [scan_ports, hres]
        | some ip =>
          rcases hs with hs | hs | hs | hs
          · rw [hall] at hs
            exact Bool.noConfusion hs
          · rw [hscan] at hs
            exact Option.noConfusion hs
          · rw [hscan] at hs
            injection hs with hs
            exact absurd hs hempty
          · obtain ⟨ps, hps, hpsrange⟩ := hs
            simp only [hscan, Option.getD_some] at hps
            obtain ⟨recs, hrecs, -⟩ :=
              scanLoop_total (conn ip) ps hpsrange none
            simp only [scan_ports, hres, Option.getD_some, hps, hrecs]

/-- C9 (counterexample): it is not true that every invocation that supplies
at least one argument exits with code 0: with arguments but no host (`-p`
alone) argparse errors out and the process exits with code 2. -/
theorem c9_parse_failure_exits_two :
    (main resOk connAccept ["-p"]).exitCode = 2 ∧ (2 : Nat) ≠ 0 :=
  ⟨by decide, by decide⟩

/-- C9 (amended): with no arguments at all the program prints help to
stderr and exits 1, and an invocation that parses successfully and whose
scan step cannot raise exits 0 regardless of resolver and probe failures —
but invocations that fail argument parsing (missing host, unknown option,
missing `-s` value) exit with argparse's code 2, and a malformed port list
on a resolving host dies with an uncaught exception, exit code 1. -/
theorem c9_exit_codes (res : String → Option String)
    (conn : String → Int → Int) (argv : List String) (a : Args)
    (hp : parseArgs argv = ParseOutcome.parsed a) (hs : goodScan a) :
    (main res conn []).exitCode = 1 ∧
    (main res conn argv).exitCode = 0 ∧
    (main res conn ["-p"]).exitCode = 2 := by
  refine ⟨rfl, ?_, rfl⟩
  have hargv : argv ≠ [] := by
    intro he
    rw [he] at hp
    exact ParseOutcome.noConfusion (hp.symm.trans rfl)
  simp only [main, if_neg hargv, hp]
  exact runArgs_exit_zero res conn a hs

/-- Witness for the amended C9 on the plain ping invocation. -/
theorem c9_exit_codes_witness :
    (main resOk connAccept []).exitCode = 1 ∧
    (main resOk connAccept ["example.com", "-p"]).exitCode = 0 ∧
    (main resOk connAccept ["-p"]).exitCode = 2 :=
  c9_exit_codes resOk connAccept ["example.com", "-p"]
    ⟨"example.com", true, none, false, false⟩ (by decide)
    (Or.inr (Or.inl rfl))

/-- C10 (confirmed): with `--all` supplied, only the fixed all-checks
sequence runs — ping, scan of the default ports 21,22,80,443,3306,8000,8080,
traceroute, in that order — and the values of `-p`, `-s` and `-t` are
silently ignored: the run is identical to one where those flags are absent,
and (when the host resolves) the only scan step in the trace uses
`commonPorts`, never a port list supplied via `-s`. -/
theorem c10_all_ignores_other_flags (res : String → Option String)
    (conn : String → Int → Int) (h : String) (p t : Bool) (s : Option String)
    (ip : String) (hres : res h = some ip) :
    runArgs res conn ⟨h, p, s, t, true⟩ =
      runArgs res conn ⟨h, false, none, false, true⟩ ∧
    (runArgs res conn ⟨h, p, s, t, true⟩).events =
      [Event.resolveCall h, Event.pingStep h, Event.resolveCall h,
       Event.scanStep h commonPorts, Event.resolveCall h, Event.traceStep h] := by
  refine ⟨rfl, ?_⟩
  rw [runArgs_all res conn ⟨h, p, s, t, true⟩ rfl]
  simp only [hres]

/-- Witness for C10: `-p`, a `-s` port list and `-t` supplied alongside
`--all` leave the run identical to the bare `--all` run, and the scanned
ports are the defaults, not "9999". -/
theorem c10_all_ignores_other_flags_witness :
    runArgs resOk connAccept ⟨"example.com", true, some "9999", true, true⟩ =
      runArgs resOk connAccept ⟨"example.com", false, none, false, true⟩ ∧
    (runArgs resOk connAccept
        ⟨"example.com", true, some "9999", true, true⟩).events =
      [Event.resolveCall "example.com", Event.pingStep "example.com",
       Event.resolveCall "example.com", Event.scanStep "example.com" commonPorts,
       Event.resolveCall "example.com", Event.traceStep "example.com"] :=
  c10_all_ignores_other_flags resOk connAccept "example.com" true true
    (some "9999") "93.184.216.34" rfl

end NetDiag
